import Mathlib

/-! Verification development for the last-dance-keno repository.

The Python sources are shallowly embedded: pure functions become Lean
functions over `ℕ`/`ℤ`/`List`/`Finset`; the stateful tracker, hybrid
source and scraper are modelled by explicit state records threaded through
their operations, with each persisted file mirrored by a field of the
state.  Draw histories are lists of draws, most recent first, exactly as
the Python keeps `self.games`. Python's stable `sort`/`sorted` is embedded
as `List.insertionSort` with a reflexive total relation on the sort key
(ties keep the original order, as in CPython). -/

namespace LastDanceKeno

namespace Tracker

/-- Embeds `get_row` of keno_tracker.py: row (1-8) for a number. -/
def get_row (num : ℕ) : ℕ := (num - 1) / 10 + 1

/-- Embeds `get_col` of keno_tracker.py: column (1-10) for a number. -/
def get_col (num : ℕ) : ℕ := (num - 1) % 10 + 1

/-- Embeds `get_neighbors` of keno_tracker.py: touching neighbors
(including diagonals), built from the clipped row/column ranges
`range(max(1,row-1), min(8,row+1)+1)` x `range(max(1,col-1), min(10,col+1)+1)`
keeping `(r-1)*10+c` when it differs from `num` and lies in 1..80. -/
def get_neighbors (num : ℕ) : Finset ℕ :=
  let row := get_row num
  let col := get_col num
  (((List.range' (max 1 (row - 1)) (min 8 (row + 1) + 1 - max 1 (row - 1))).flatMap fun r =>
      (List.range' (max 1 (col - 1)) (min 10 (col + 1) + 1 - max 1 (col - 1))).map fun c =>
        (r - 1) * 10 + c).filter fun m => decide (m ≠ num ∧ 1 ≤ m ∧ m ≤ 80)).toFinset

end Tracker

namespace Multi

/-- Embeds `rc` of keno_multi_strategy.py: 0-indexed (row, column). -/
def rc (n : ℕ) : ℕ × ℕ := ((n - 1) / 10, (n - 1) % 10)

/-- Embeds `to_num` of keno_multi_strategy.py. -/
def to_num (r c : ℕ) : ℕ := r * 10 + c + 1

/-- Embeds `mirror_num` of keno_multi_strategy.py: `81 - n`. -/
def mirror_num (n : ℕ) : ℕ := 81 - n

/-- Embeds the module-level `get_neighbors` of keno_multi_strategy.py:
all `to_num (r+dr) (c+dc)` for offsets in {-1,0,1}^2, excluding (0,0),
clipped to the 8x10 board.  Offsets use `ℤ` since Python works with
possibly negative intermediate coordinates. -/
def get_neighbors (n : ℕ) : Finset ℕ :=
  let r : ℤ := ((n - 1) / 10 : ℕ)
  let c : ℤ := ((n - 1) % 10 : ℕ)
  ((([-1, 0, 1] : List ℤ).flatMap fun dr => ([-1, 0, 1] : List ℤ).map fun dc => (dr, dc)).filterMap
    fun p =>
      if (¬(p.1 = 0 ∧ p.2 = 0)) ∧ 0 ≤ r + p.1 ∧ r + p.1 < 8 ∧ 0 ≤ c + p.2 ∧ c + p.2 < 10 then
        some ((r + p.1).toNat * 10 + (c + p.2).toNat + 1)
      else none).toFinset

end Multi

/-- Sort key used by the elimination ranking: Python's tuple
`(-hits_last_50, hits_last_10)`. -/
def rankKey (hits_50 hits_10 : ℕ) : ℤ × ℕ := (-(hits_50 : ℤ), hits_10)

/-- Lexicographic order on the elimination sort key, as Python compares
`(-hits_50, hits_10)` tuples. -/
def rankLE (a b : ℤ × ℕ) : Prop := a.1 < b.1 ∨ (a.1 = b.1 ∧ a.2 ≤ b.2)

instance : DecidableRel rankLE := fun a b =>
  inferInstanceAs (Decidable (a.1 < b.1 ∨ (a.1 = b.1 ∧ a.2 ≤ b.2)))

namespace Tracker

/-- Embeds `KenoTracker.calculate_hits`: how many of the first `last_n`
draws (most recent first) contain `num`. -/
def calculate_hits (games : List (List ℕ)) (num last_n : ℕ) : ℕ :=
  (games.take last_n).countP fun g => decide (num ∈ g)

/-- Embeds `KenoTracker.hit_in_specific_games`: `num` hit in any of the
given 1-based positions (1 = most recent). -/
def hit_in_specific_games (games : List (List ℕ)) (num : ℕ) (positions : List ℕ) : Bool :=
  positions.any fun pos => decide (pos ≤ games.length) && decide (num ∈ games.getD (pos - 1) [])

/-- Embeds `KenoTracker.hit_count_in_specific_games`. -/
def hit_count_in_specific_games (games : List (List ℕ)) (num : ℕ) (positions : List ℕ) : ℕ :=
  positions.countP fun pos => decide (pos ≤ games.length) && decide (num ∈ games.getD (pos - 1) [])

/-- Embeds `KenoTracker.has_touching_neighbor_hit`: some touching
neighbor of `num` was drawn in the game at the 1-based `position`. -/
def has_touching_neighbor_hit (games : List (List ℕ)) (num position : ℕ) : Bool :=
  if games.length < position then false
  else decide (((get_neighbors num).filter (· ∈ games.getD (position - 1) [])).Nonempty)

/-- Embeds `KenoTracker.is_row_col_hot`: the row or the column of `num`
collected at least `threshold` hits in one of the last `last_n` draws. -/
def is_row_col_hot (games : List (List ℕ)) (num last_n threshold : ℕ) : Bool :=
  (List.range (min last_n games.length)).any fun i =>
    let drawn := games.getD i []
    decide (threshold ≤ drawn.countP fun n => decide (get_row n = get_row num)) ||
    decide (threshold ≤ drawn.countP fun n => decide (get_col n = get_col num))

/-- Per-number record built inside `get_playable_numbers`. -/
structure NumData where
  number : ℕ
  hits_last_10 : ℕ
  hits_last_50 : ℕ
  remove : Bool
deriving DecidableEq

/-- Embeds `KenoTracker.get_playable_numbers`: the seven elimination
rules over the draw history (most recent first); survivors are sorted by
`(-hits_last_50, hits_last_10)` (stable). Returns the full survivor list,
as the Python does (callers truncate to 20). -/
def get_playable_numbers (games : List (List ℕ)) : List ℕ :=
  if games = [] then List.range' 1 80
  else
    let numbers_data := (List.range' 1 80).map fun num =>
      let hits_last_10 := calculate_hits games num 10
      let hits_last_50 :=
        if 50 ≤ games.length then calculate_hits games num 50
        else calculate_hits games num games.length
      let remove :=
        hit_in_specific_games games num [1, 2] ||
        decide (2 ≤ hit_count_in_specific_games games num [1, 2, 3]) ||
        decide (4 ≤ hit_count_in_specific_games games num (List.range' 1 8)) ||
        decide (6 ≤ hits_last_10) ||
        hit_in_specific_games games num [1, 3, 4] ||
        is_row_col_hot games num 3 4 ||
        !has_touching_neighbor_hit games num 1
      NumData.mk num hits_last_10 hits_last_50 remove
    let playable := numbers_data.filter fun x => !x.remove
    let sorted := List.insertionSort
      (fun a b => rankLE (rankKey a.hits_last_50 a.hits_last_10)
        (rankKey b.hits_last_50 b.hits_last_10)) playable
    sorted.map (·.number)

end Tracker

namespace Multi

/-- Embeds `KenoMultiStrategy.strategy_elimination` over the draw history
(most recent first).  The local helpers `hits_in_n`, `hit_in_positions`,
`has_neighbor_hit` and `is_row_col_hot` are inlined exactly as in the
source; the `remove` set collects the numbers for which every `continue`
guard is false, and the returned `remaining` list is its complement. -/
def strategy_elimination (games : List (List ℕ)) : List ℕ :=
  if games = [] then List.range' 1 80
  else
    let hits_in_n := fun (num n : ℕ) => (games.take n).countP fun g => decide (num ∈ g)
    let hit_in_positions := fun (num : ℕ) (positions : List ℕ) =>
      positions.any fun pos =>
        decide (pos ≤ games.length) && decide (num ∈ games.getD (pos - 1) [])
    let has_neighbor_hit := fun (num position : ℕ) =>
      if games.length < position then false
      else decide (((get_neighbors num).filter (· ∈ games.getD (position - 1) [])).Nonempty)
    let is_row_col_hot := fun (num last_n threshold : ℕ) =>
      (List.range (min last_n games.length)).any fun i =>
        let drawn := games.getD i []
        decide (threshold ≤ drawn.countP fun n => decide ((rc n).1 = (rc num).1)) ||
        decide (threshold ≤ drawn.countP fun n => decide ((rc n).2 = (rc num).2))
    let remove := (List.range' 1 80).filter fun num =>
      !hit_in_positions num [1, 2] &&
      !decide (2 ≤ (games.take 3).countP fun g => decide (num ∈ g)) &&
      !decide (4 ≤ hits_in_n num 8) &&
      !decide (6 ≤ hits_in_n num 10) &&
      !hit_in_positions num [1, 3, 4] &&
      !is_row_col_hot num 3 4 &&
      has_neighbor_hit num 1
    let remaining := (List.range' 1 80).filter fun n => !remove.contains n
    (List.insertionSort
      (fun a b => rankLE (rankKey (hits_in_n a 50) (hits_in_n a 10))
        (rankKey (hits_in_n b 50) (hits_in_n b 10))) remaining).take 20

/-- Relation for the descending stable sort of `(number, heat)` pairs in
`strategy_cluster_heat` (Python `sorted(..., key=lambda x: -x[1])`). -/
def heatGE (a b : ℕ × ℕ) : Prop := b.2 ≤ a.2

instance : DecidableRel heatGE := fun a b => inferInstanceAs (Decidable (b.2 ≤ a.2))

instance : IsTotal (ℕ × ℕ) heatGE := ⟨fun a b => Nat.le_total b.2 a.2⟩

instance : IsTrans (ℕ × ℕ) heatGE := ⟨fun _ _ _ h1 h2 => Nat.le_trans h2 h1⟩

/-- Embeds the `heat_scores` dict of `strategy_cluster_heat`: for each
number 1..80 (insertion order), the summed neighbor hits over the last 3
draws. -/
def heat_scores (games : List (List ℕ)) : List (ℕ × ℕ) :=
  (List.range' 1 80).map fun num =>
    (num, ((games.take 3).map fun g => ((get_neighbors num).filter (· ∈ g)).card).sum)

/-- Embeds `sorted_heat` of `strategy_cluster_heat`: the heat pairs sorted
by heat descending (stable). -/
def sorted_heat (games : List (List ℕ)) : List (ℕ × ℕ) :=
  List.insertionSort heatGE (heat_scores games)

/-- Embeds `top_threshold` of `strategy_cluster_heat`:
`sorted_heat[20][1] if len(sorted_heat) >= 20 else 0` (the list always has
80 entries, so the guard is always taken and the index is in bounds). -/
def top_threshold (games : List (List ℕ)) : ℕ :=
  if 20 ≤ (sorted_heat games).length then ((sorted_heat games).getD 20 (0, 0)).2 else 0

/-- Embeds `KenoMultiStrategy.strategy_cluster_heat`. -/
def strategy_cluster_heat (games : List (List ℕ)) : List ℕ :=
  if games = [] then List.range' 1 80
  else
    (((sorted_heat games).filter fun p => decide (top_threshold games ≤ p.2)).map Prod.fst).take 20

/-- The cluster selection as the specification words it: the threshold is
the 20th-highest of the 80 scores (index 19 of the descending order), and
every number scoring at or above it is returned, truncated to 20. -/
def cluster_heat_spec (games : List (List ℕ)) : List ℕ :=
  if games = [] then List.range' 1 80
  else
    let threshold := ((sorted_heat games).getD 19 (0, 0)).2
    (((sorted_heat games).filter fun p => decide (threshold ≤ p.2)).map Prod.fst).take 20

/-- Python's `min(iterable, key=...)`: the first element attaining the
minimal key. -/
def pyMinBy (key : α → ℕ) : List α → Option α
  | [] => none
  | x :: xs => some (xs.foldl (fun best y => if key y < key best then y else best) x)

/-- Embeds `KenoMultiStrategy.strategy_decade`.  `decade_hits` is a list
of `(start, end, count)` triples; note that the fallback
`min(decade_hits, key=lambda x: x[1])` keys on the band END (`x[1]`), not
the count (`x[2]`), exactly as the source does.  The Python cold test is
`count < expected * 0.7` with `expected = 8 * 20 / 4 = 40.0`; in IEEE
double arithmetic `40.0 * 0.7` is exactly `28.0`, so the test on the
integer tally is `count < 28`. -/
def strategy_decade (games : List (List ℕ)) : List ℕ :=
  if games.length < 8 then List.range' 1 80
  else
    let decades : List (ℕ × ℕ) := [(1, 20), (21, 40), (41, 60), (61, 80)]
    let decade_hits : List (ℕ × ℕ × ℕ) := decades.map fun d =>
      (d.1, d.2, ((games.take 8).map fun g => g.countP fun n => decide (d.1 ≤ n ∧ n ≤ d.2)).sum)
    let cold0 := decade_hits.filter fun d => decide (d.2.2 < 28)
    let cold_decades :=
      if cold0 = [] then [(pyMinBy (fun d => d.2.1) decade_hits).getD (0, 0, 0)] else cold0
    let candidates := cold_decades.flatMap fun d =>
      (List.range' d.1 (d.2.1 + 1 - d.1)).map fun num =>
        (num, (games.take 10).countP fun g => decide (num ∈ g))
    let sorted := List.insertionSort (fun a b : ℕ × ℕ => a.2 ≤ b.2) candidates
    (sorted.take 15).map (·.1)

/-- The decade fallback as the claim words it: when no band is cold, pool
from the single band with the LOWEST HIT TALLY (`x[2]`), everything else
as in `strategy_decade`. -/
def strategy_decade_claim (games : List (List ℕ)) : List ℕ :=
  if games.length < 8 then List.range' 1 80
  else
    let decades : List (ℕ × ℕ) := [(1, 20), (21, 40), (41, 60), (61, 80)]
    let decade_hits : List (ℕ × ℕ × ℕ) := decades.map fun d =>
      (d.1, d.2, ((games.take 8).map fun g => g.countP fun n => decide (d.1 ≤ n ∧ n ≤ d.2)).sum)
    let cold0 := decade_hits.filter fun d => decide (d.2.2 < 28)
    let cold_decades :=
      if cold0 = [] then [(pyMinBy (fun d => d.2.2) decade_hits).getD (0, 0, 0)] else cold0
    let candidates := cold_decades.flatMap fun d =>
      (List.range' d.1 (d.2.1 + 1 - d.1)).map fun num =>
        (num, (games.take 10).countP fun g => decide (num ∈ g))
    let sorted := List.insertionSort (fun a b : ℕ × ℕ => a.2 ≤ b.2) candidates
    (sorted.take 15).map (·.1)

end Multi

namespace Analyzer

/-- Method names defined on the `KenoAnalyzer` class, in source order.
Python resolves `self.<name>` by lookup in this table; a name that is not
defined raises `AttributeError`. -/
def kenoAnalyzerMethods : List String :=
  ["pair_analysis", "print_pair_analysis", "repeat_analysis", "print_repeat_analysis",
   "balance_analysis", "print_balance_analysis", "row_col_heatmap", "print_row_col_heatmap",
   "monte_carlo_sim", "print_monte_carlo", "gap_chart", "run_all_analyses"]

/-- Models Python attribute resolution on a `KenoAnalyzer` instance:
succeeds exactly when the method exists, otherwise raises
`AttributeError`. -/
def callMethod (name : String) : Except String Unit :=
  if name ∈ kenoAnalyzerMethods then Except.ok () else Except.error ("AttributeError: " ++ name)

/-- Embeds `KenoAnalyzer.run_all_analyses` at the granularity of its six
method calls, in source order, over any supplied draw history.  Each
report body only prints to the console; what matters for control flow is
whether each named attribute exists. -/
def run_all_analyses (history : List (List ℕ)) : Except String Unit := do
  let _ := history
  let _ ← callMethod "print_pair_analysis"
  let _ ← callMethod "print_repeat_analysis"
  let _ ← callMethod "print_balance_analysis"
  let _ ← callMethod "print_row_col_heatmap"
  let _ ← callMethod "print_gap_chart"
  let _ ← callMethod "print_monte_carlo"

end Analyzer

namespace Tracker

/-- A draw record held by `KenoTracker` (`unique_key` is fixed at
construction time as `f"{game_id}_{date}"`). -/
structure Game where
  game_id : ℕ
  date : String
  time : String
  numbers : List ℕ
  unique_key : String
deriving DecidableEq

/-- A prediction row of `KenoTracker`. -/
structure Prediction where
  game_id : ℕ
  date : String
  playable_numbers : List ℕ
  removed_count : ℕ
deriving DecidableEq

/-- A score row of `KenoTracker` (as persisted to scores.csv). -/
structure ScoreRow where
  game_id : ℕ
  hits : ℕ
  playable_count : ℕ
deriving DecidableEq

/-- The dict returned by `KenoTracker.score_prediction`. -/
structure ScoreResult where
  game_id : ℕ
  hits : ℕ
  playable_count : ℕ
  hit_numbers : List ℕ
  predicted : List ℕ
  actual : List ℕ
deriving DecidableEq

/-- The `KenoTracker` state: the in-memory lists plus the mirror of each
persisted file (`games_csv` rows are appended; the predictions and scores
files are rewritten whole from the in-memory list on every save). -/
structure TrackerState where
  games : List Game
  predictions : List Prediction
  scores : List ScoreRow
  games_csv : List (ℕ × String × String × List ℕ)
  scores_csv : List ScoreRow
deriving DecidableEq

/-- Embeds `KenoTracker.add_game`: rejects a draw whose
`f"{game_id}_{date}"` key is already present, otherwise appends it,
re-sorts the in-memory list by `game_id` descending (stable) and appends
one row to games.csv. -/
def add_game (st : TrackerState) (game_id : ℕ) (date time : String) (numbers : List ℕ) :
    Bool × TrackerState :=
  let u_key := toString game_id ++ "_" ++ date
  if st.games.any fun g => g.unique_key == u_key then (false, st)
  else
    let games := st.games ++ [Game.mk game_id date time numbers u_key]
    let games := List.insertionSort (fun a b => b.game_id ≤ a.game_id) games
    (true, { st with games := games,
                     games_csv := st.games_csv ++ [(game_id, date, time, numbers)] })

/-- Embeds `KenoTracker.score_prediction`: look up the first prediction
and the first stored draw with the given `game_id`; if both exist, the
score is the set intersection of the predicted and drawn numbers
(`hits = len(predicted & actual)`, `hit_numbers = sorted(predicted & actual)`),
appended to the scores list and persisted; otherwise no value is returned
and the state is untouched.  The Python set intersection is embedded at
the list level: its elements are the distinct common elements
(`filter` + `dedup`) and `sorted` is an ascending sort of them. -/
def score_prediction (st : TrackerState) (game_id : ℕ) : Option ScoreResult × TrackerState :=
  match st.predictions.find? fun p => p.game_id == game_id with
  | none => (none, st)
  | some prediction =>
    match st.games.find? fun g => g.game_id == game_id with
    | none => (none, st)
    | some game =>
      let inter := (prediction.playable_numbers.filter (· ∈ game.numbers)).dedup
      let hits := inter.length
      let hit_numbers := List.insertionSort (· ≤ ·) inter
      let score := ScoreResult.mk game_id hits prediction.playable_numbers.length
        hit_numbers prediction.playable_numbers game.numbers
      let scores := st.scores ++ [ScoreRow.mk game_id hits prediction.playable_numbers.length]
      (some score, { st with scores := scores, scores_csv := scores })

end Tracker

namespace Hybrid

/-- A manual entry in the hybrid source's checkpoint state. -/
structure ManualEntry where
  game_id : ℤ
  drawn : List ℕ
  timestamp : String
deriving DecidableEq

/-- The hybrid source's checkpoint state (source_state.json). -/
structure SourceState where
  last_game_id : ℤ
  manual_entries : List ManualEntry
deriving DecidableEq

/-- A row of the loaded games table.  `nums` holds the `number_1..20`
cells that parsed as integers (non-numeric cells are skipped by the
Python `try/except`). -/
structure Row where
  game_id : ℤ
  date : String
  time : String
  nums : List ℕ
deriving DecidableEq

/-- A draw dict as returned by the hybrid source's query operations. -/
structure GameDict where
  game_id : ℤ
  drawn : List ℕ
  date : String
  time : String
deriving DecidableEq

/-- The `HybridGameSource` component state: in-memory checkpoint state,
the persisted checkpoint file's contents, and the games table loaded at
construction (sorted by parsed timestamp ascending; never re-read). -/
structure HybridGameSource where
  state : SourceState
  saved_state : SourceState
  games_df : List Row
deriving DecidableEq

/-- Embeds `HybridGameSource._save_state`: write the in-memory state to
the checkpoint file. -/
def save_state (src : HybridGameSource) : HybridGameSource :=
  { src with saved_state := src.state }

/-- Embeds `HybridGameSource.get_new_games_since`: every table row with
`game_id` strictly greater than the argument and a complete set of 20
parsed numbers, normalized to sorted-numbers form. -/
def get_new_games_since (src : HybridGameSource) (last_game_id : ℤ) : List GameDict :=
  src.games_df.filterMap fun row =>
    if last_game_id < row.game_id ∧ row.nums.length = 20 then
      some (GameDict.mk row.game_id (List.insertionSort (· ≤ ·) row.nums) row.date row.time)
    else none

/-- Embeds `HybridGameSource.check_for_updates`: compare the table's last
row's `game_id` with the checkpoint; if strictly newer, return the delta
via `get_new_games_since`, advance the checkpoint and persist it;
otherwise return the empty list and leave everything unchanged. -/
def check_for_updates (src : HybridGameSource) : List GameDict × HybridGameSource :=
  match src.games_df.getLast? with
  | none => ([], src)
  | some latest =>
    if src.state.last_game_id < latest.game_id then
      let new_games := get_new_games_since src src.state.last_game_id
      let src1 := { src with state := { src.state with last_game_id := latest.game_id } }
      (new_games, save_state src1)
    else ([], src)

/-- Embeds `HybridGameSource.add_manual_game`: validates exactly 20
numbers, each in 1..80; on success appends a timestamped entry to
`manual_entries` and persists the state. The wall-clock timestamp is
passed in as a parameter. -/
def add_manual_game (src : HybridGameSource) (game_id : ℤ) (drawn : List ℕ)
    (timestamp : String) : Bool × HybridGameSource :=
  if drawn.length ≠ 20 then (false, src)
  else if ¬ ∀ n ∈ drawn, 1 ≤ n ∧ n ≤ 80 then (false, src)
  else
    let entry := ManualEntry.mk game_id (List.insertionSort (· ≤ ·) drawn) timestamp
    let src1 := { src with state :=
      { src.state with manual_entries := src.state.manual_entries ++ [entry] } }
    (true, save_state src1)

/-- Embeds `HybridGameSource.get_manual_game`: first manual entry with
the given id, if any. -/
def get_manual_game (src : HybridGameSource) (game_id : ℤ) : Option ManualEntry :=
  src.state.manual_entries.find? fun e => e.game_id == game_id

end Hybrid

namespace Telegram

/-- The default chat id literal of keno_telegram.py. -/
def TELEGRAM_CHAT_ID : String := "5457189805"

/-- Outcome of the HTTP POST plus JSON decode inside the `try` block:
either some exception was raised in transit, or a JSON body was obtained
whose `ok` field is absent or a boolean and whose `description` field is
optional. -/
inductive TgOutcome where
  | exn (message : String)
  | response (ok : Option Bool) (description : Option String)
deriving DecidableEq

/-- Embeds `send_telegram_message`: the transport is abstracted as a
function from (chat_id, text) to a `TgOutcome`.  Returns the boolean
result together with the console lines printed. -/
def send_telegram_message (transport : String → String → TgOutcome) (message : String)
    (chat_id : Option String) : Bool × List String :=
  let chat := chat_id.getD TELEGRAM_CHAT_ID
  match transport chat message with
  | TgOutcome.exn e => (false, ["Telegram send error: " ++ e])
  | TgOutcome.response okField desc =>
    if okField = some true then (true, [])
    else (false, ["Telegram error: " ++ desc.getD "Unknown"])

end Telegram

namespace Scraper

/-- A parsed historical entry (`_parse_historical_entry` succeeded). -/
structure Entry where
  game_id : ℕ
  date : String
  time : String
  numbers : List ℕ
deriving DecidableEq

/-- The identity key `f"{game_id}_{date}"` of an entry. -/
def unique_key (e : Entry) : String := toString e.game_id ++ "_" ++ e.date

/-- The scraper's checkpoint state plus the games.csv mirror. -/
structure ScraperState where
  last_game_id : ℕ
  seen_games : List String
  games_csv : List (ℕ × String × String × List ℕ)
deriving DecidableEq

/-- A historical page as the deep fetch sees it: the parse result of each
game link on the page (`none` when `_parse_historical_entry` returned
None). -/
abbrev Page := List (Option Entry)

/-- The loop-local accumulation state of `fetch_historical_deep`. -/
structure DeepState where
  all_games : List Entry
  collected_keys : List String
  consecutive_empty : ℕ
deriving DecidableEq

/-- The per-page tallies of `fetch_historical_deep`. -/
structure PageResult where
  st : DeepState
  page_new : ℕ
  page_duplicates : ℕ
  page_already_seen : ℕ
deriving DecidableEq

/-- Embeds the inner `for link in game_links` loop of
`fetch_historical_deep`: classify each parsed entry as new /
duplicate-within-run / already-seen-in-checkpoint; unparseable links
contribute to no tally. -/
def process_page (seen : List String) : DeepState → List (Option Entry) → PageResult
  | st, [] => PageResult.mk st 0 0 0
  | st, none :: rest => process_page seen st rest
  | st, some gd :: rest =>
    let k := unique_key gd
    if k ∈ st.collected_keys then
      let r := process_page seen st rest
      PageResult.mk r.st r.page_new (r.page_duplicates + 1) r.page_already_seen
    else if k ∈ seen then
      let r := process_page seen st rest
      PageResult.mk r.st r.page_new r.page_duplicates (r.page_already_seen + 1)
    else
      let st1 := { st with all_games := st.all_games ++ [gd],
                           collected_keys := st.collected_keys ++ [k] }
      let r := process_page seen st1 rest
      PageResult.mk r.st (r.page_new + 1) r.page_duplicates r.page_already_seen

/-- Embeds the `for page_num in range(max_pages)` loop of
`fetch_historical_deep`.  `pages` is the sequence of pages the browser
will show; clicking a pagination control succeeds exactly while pages
remain.  Returns the collected games and the number of pages visited. -/
def deep_loop (seen : List String) (max_games : ℕ) :
    List Page → DeepState → ℕ → List Entry × ℕ
  | _, st, 0 => (st.all_games, 0)
  | [], st, _ + 1 => (st.all_games, 0)
  | page :: rest, st, fuel + 1 =>
    if max_games ≤ st.all_games.length then (st.all_games, 0)
    else
      let r := process_page seen st page
      if 0 < r.page_new then
        match rest with
        | [] => (r.st.all_games, 1)
        | _ :: _ =>
          let res := deep_loop seen max_games rest { r.st with consecutive_empty := 0 } fuel
          (res.1, res.2 + 1)
      else if r.page_duplicates + r.page_already_seen = page.length ∧ 0 < page.length then
        (r.st.all_games, 1)
      else
        let ce := st.consecutive_empty + 1
        if 3 ≤ ce then (r.st.all_games, 1)
        else
          match rest with
          | [] => (r.st.all_games, 1)
          | _ :: _ =>
            let res := deep_loop seen max_games rest { r.st with consecutive_empty := ce } fuel
            (res.1, res.2 + 1)

/-- Embeds `SimpleKenoScraper.fetch_historical_deep`: runs the pagination
loop from an empty local collection and returns (games, pages visited)
together with the scraper state, which the scan never writes to
(`self.seen_games` is only read; the returned state is the input
state). -/
def fetch_historical_deep (st : ScraperState) (pages : List Page) (max_games max_pages : ℕ) :
    (List Entry × ℕ) × ScraperState :=
  (deep_loop st.seen_games max_games pages (DeepState.mk [] [] 0) max_pages, st)

/-- Embeds `SimpleKenoScraper.check_and_save_new_games`: each candidate
whose key is not yet in `seen_games` is appended to games.csv, its key
added to `seen_games`, and `last_game_id` raised to its id if larger. -/
def check_and_save_new_games (st : ScraperState) (games : List Entry) : ℕ × ScraperState :=
  games.foldl
    (fun acc game =>
      let k := unique_key game
      if k ∈ acc.2.seen_games then acc
      else
        (acc.1 + 1,
         { acc.2 with
            games_csv := acc.2.games_csv ++ [(game.game_id, game.date, game.time, game.numbers)],
            seen_games := acc.2.seen_games ++ [k],
            last_game_id := if acc.2.last_game_id < game.game_id then game.game_id
                            else acc.2.last_game_id }))
    (0, st)

/-- Fixture: an entry whose identity key `5_01/01/24` is already in the
checkpoint used by the deep-fetch analysis below. -/
def knownEntry : Entry := Entry.mk 5 "01/01/24" "10:00:00" (List.range' 1 20)

/-- Fixture: a fresh entry with the given id, never seen before. -/
def freshEntry (id : ℕ) : Entry := Entry.mk id "01/01/24" "10:05:00" (List.range' 1 20)

/-- Fixture: a paginated source in which every even page carries one
fresh entry and every odd page (pages 2, 4, 6) carries one unparseable
link plus the already-seen entry. -/
def mixedPages : List Page :=
  [[some (freshEntry 11)], [none, some knownEntry], [some (freshEntry 12)],
   [none, some knownEntry], [some (freshEntry 13)], [none, some knownEntry]]

/-- Fixture: the checkpoint state that has already seen `knownEntry`. -/
def seenState : ScraperState := ScraperState.mk 0 ["5_01/01/24"] []

end Scraper

/-- C1: the multi-strategy `strategy_elimination` is NOT behaviorally
equivalent to the tracker's `get_playable_numbers` top 20.  On the
one-draw history whose draw is {1..20}, the tracker's survivors are
21..30, but `strategy_elimination` returns 1..20 — exactly the numbers
the seven rules eliminate — because its `remove` set collects the
numbers that PASS every rule and it then returns the complement. -/
theorem strategy_elimination_inverted :
    Multi.strategy_elimination [List.range' 1 20] = List.range' 1 20 ∧
    (Tracker.get_playable_numbers [List.range' 1 20]).take 20 = List.range' 21 10 ∧
    Multi.strategy_elimination [List.range' 1 20] ≠
      (Tracker.get_playable_numbers [List.range' 1 20]).take 20 := by decide

/-- C2: `run_all_analyses` never completes: its fifth step calls
`self.print_gap_chart`, a method that does not exist on `KenoAnalyzer`
(the class defines `gap_chart`), so every invocation raises
`AttributeError` after the fourth report, for every draw history. -/
theorem run_all_analyses_attribute_error (history : List (List ℕ)) :
    Analyzer.run_all_analyses history = Except.error "AttributeError: print_gap_chart" := rfl

/-- C3: when every band's 8-draw tally is at or above the cold threshold
28, `strategy_decade` does NOT pool from the band with the lowest hit
tally: its fallback `min(decade_hits, key=lambda x: x[1])` keys on the
band's END value, always selecting the 1-20 band.  On 8 identical draws
{1..6, 21..25, 41..45, 61..64} the tallies are (48, 40, 40, 32): the code
pools from band 1-20 (tally 48) while the claim's coldest band is 61-80
(tally 32), and the outputs differ. -/
theorem strategy_decade_takes_first_band :
    Multi.strategy_decade (List.replicate 8
        (List.range' 1 6 ++ List.range' 21 5 ++ List.range' 41 5 ++ List.range' 61 4)) =
      List.range' 7 14 ++ [1] ∧
    Multi.strategy_decade_claim (List.replicate 8
        (List.range' 1 6 ++ List.range' 21 5 ++ List.range' 41 5 ++ List.range' 61 4)) =
      List.range' 65 15 ∧
    Multi.strategy_decade (List.replicate 8
        (List.range' 1 6 ++ List.range' 21 5 ++ List.range' 41 5 ++ List.range' 61 4)) ≠
      Multi.strategy_decade_claim (List.replicate 8
        (List.range' 1 6 ++ List.range' 21 5 ++ List.range' 41 5 ++ List.range' 61 4)) := by
  decide

/-- C7: board geometry invariants.  For every n in 1..80 the tracker's
row is in 1..8, the column in 1..10, `(row-1)*10+col` reconstructs n, the
mirror is involutive and fixed-point free, and both neighbor functions
exclude n and stay inside 1..80; the neighbor count is 8 for the interior
number 25 and 3 for the corner 1 under both definitions. -/
theorem board_geometry_invariants :
    (∀ n ∈ Finset.Icc 1 80,
      Tracker.get_row n ∈ Finset.Icc 1 8 ∧
      Tracker.get_col n ∈ Finset.Icc 1 10 ∧
      (Tracker.get_row n - 1) * 10 + Tracker.get_col n = n ∧
      Multi.mirror_num (Multi.mirror_num n) = n ∧
      Multi.mirror_num n ≠ n ∧
      n ∉ Tracker.get_neighbors n ∧
      n ∉ Multi.get_neighbors n ∧
      (∀ m ∈ Tracker.get_neighbors n, 1 ≤ m ∧ m ≤ 80) ∧
      (∀ m ∈ Multi.get_neighbors n, 1 ≤ m ∧ m ≤ 80)) ∧
    (Tracker.get_neighbors 25).card = 8 ∧ (Multi.get_neighbors 25).card = 8 ∧
    (Tracker.get_neighbors 1).card = 3 ∧ (Multi.get_neighbors 1).card = 3 := by decide

/-- Witness for C7 at the concrete interior number 25. -/
theorem board_geometry_invariants_witness :
    (25 : ℕ) ∈ Finset.Icc 1 80 ∧
    (Tracker.get_row 25 ∈ Finset.Icc 1 8 ∧
      Tracker.get_col 25 ∈ Finset.Icc 1 10 ∧
      (Tracker.get_row 25 - 1) * 10 + Tracker.get_col 25 = 25 ∧
      Multi.mirror_num (Multi.mirror_num 25) = 25 ∧
      Multi.mirror_num 25 ≠ 25 ∧
      25 ∉ Tracker.get_neighbors 25 ∧
      25 ∉ Multi.get_neighbors 25 ∧
      (∀ m ∈ Tracker.get_neighbors 25, 1 ≤ m ∧ m ≤ 80) ∧
      (∀ m ∈ Multi.get_neighbors 25, 1 ≤ m ∧ m ≤ 80)) :=
  ⟨by decide, board_geometry_invariants.1 25 (by decide)⟩

/-- C10: adding a draw whose identity key `f"{game_id}_{date}"` matches a
draw already held in memory returns False and leaves the in-memory list
and the games CSV unchanged (the whole state is returned as-is). -/
theorem add_game_duplicate_rejected (st : Tracker.TrackerState) (game_id : ℕ)
    (date time : String) (numbers : List ℕ)
    (h : ∃ g ∈ st.games, g.unique_key = toString game_id ++ "_" ++ date) :
    Tracker.add_game st game_id date time numbers = (false, st) := by
  have hany : (st.games.any fun g => g.unique_key == toString game_id ++ "_" ++ date) = true := by
    obtain ⟨g, hg, hk⟩ := h
    exact List.any_eq_true.2 ⟨g, hg, by simp [hk]⟩
  simp only [Tracker.add_game, hany, if_pos]

/-- Witness for C10: a concrete duplicate (same game id and date, new
numbers) is rejected without any state change. -/
theorem add_game_duplicate_rejected_witness :
    Tracker.add_game
        (Tracker.TrackerState.mk
          [Tracker.Game.mk 5 "01/01/24" "10:00:00" (List.range' 1 20) "5_01/01/24"] [] [] [] [])
        5 "01/01/24" "11:00:00" (List.range' 21 20) =
      (false,
        Tracker.TrackerState.mk
          [Tracker.Game.mk 5 "01/01/24" "10:00:00" (List.range' 1 20) "5_01/01/24"] [] [] [] []) :=
  add_game_duplicate_rejected _ 5 "01/01/24" "11:00:00" (List.range' 21 20)
    ⟨Tracker.Game.mk 5 "01/01/24" "10:00:00" (List.range' 1 20) "5_01/01/24",
      List.mem_singleton.mpr rfl, rfl⟩

/-- Taking `k` elements of a filtered list equals taking `k` of the
original list whenever the predicate holds on the first `j ≥ k`
elements. -/
theorem filter_take_eq {α : Type} (p : α → Bool) (l : List α) :
    ∀ k j : ℕ, k ≤ j → (∀ x ∈ l.take j, p x = true) → (l.filter p).take k = l.take k := by
  induction l with
  | nil => intro k j _ _; simp
  | cons x xs ih =>
    intro k j hkj h
    cases k with
    | zero => simp
    | succ k =>
      cases j with
      | zero => omega
      | succ j =>
        have hx : p x = true := h x (by simp [List.take_succ_cons])
        rw [List.filter_cons_of_pos hx, List.take_succ_cons, List.take_succ_cons,
          ih k j (by omega) fun y hy => h y (by simp [List.take_succ_cons, hy])]

/-- In a list sorted descending by heat, every element among the first
`i + 1` scores at least as much as the element at index `i`. -/
theorem sorted_le_of_mem_take :
    ∀ l : List (ℕ × ℕ), l.Sorted Multi.heatGE → ∀ i, i < l.length →
      ∀ x ∈ l.take (i + 1), (l.getD i (0, 0)).2 ≤ x.2 := by
  intro l
  induction l with
  | nil => intro _ i hi; simp at hi
  | cons y ys ih =>
    intro hs i hi x hx
    cases i with
    | zero =>
      rw [List.take_succ_cons, List.take_zero] at hx
      rcases List.mem_singleton.mp hx with rfl
      simp [List.getD]
    | succ i =>
      have hgd : (y :: ys).getD (i + 1) (0, 0) = ys.getD i (0, 0) := by simp [List.getD]
      rw [hgd]
      rw [List.take_succ_cons] at hx
      rcases List.mem_cons.mp hx with rfl | hx2
      · have hiys : i < ys.length := by simpa using hi
        have hmem : ys.getD i (0, 0) ∈ ys := by
          rw [List.getD_eq_getElem ys (0, 0) hiys]
          exact List.getElem_mem hiys
        exact List.rel_of_sorted_cons hs _ hmem
      · exact ih hs.of_cons i (by simpa using hi) x hx2

/-- C4: for every non-empty history, `strategy_cluster_heat` returns
exactly what the claim describes: every number whose summed 3-draw
neighbor-hit score is at or above the 20th-highest of the 80 scores, in
descending-score order, truncated to 20.  The code indexes
`sorted_heat[20]` (the 21st-highest score) instead of the 20th-highest,
but both thresholds select a prefix of the descending order of length at
least 20, so the truncated outputs coincide. -/
theorem cluster_heat_matches_spec (games : List (List ℕ)) (h : games ≠ []) :
    Multi.strategy_cluster_heat games = Multi.cluster_heat_spec games := by
  have hlen : (Multi.sorted_heat games).length = 80 := by
    rw [Multi.sorted_heat, List.length_insertionSort, Multi.heat_scores, List.length_map,
      List.length_range']
  have hsort : (Multi.sorted_heat games).Sorted Multi.heatGE :=
    List.sorted_insertionSort Multi.heatGE (Multi.heat_scores games)
  have h21 : ∀ x ∈ (Multi.sorted_heat games).take 21,
      (decide (((Multi.sorted_heat games).getD 20 (0, 0)).2 ≤ x.2)) = true := fun x hx =>
    decide_eq_true (sorted_le_of_mem_take (Multi.sorted_heat games) hsort 20 (by omega) x hx)
  have h20 : ∀ x ∈ (Multi.sorted_heat games).take 20,
      (decide (((Multi.sorted_heat games).getD 19 (0, 0)).2 ≤ x.2)) = true := fun x hx =>
    decide_eq_true (sorted_le_of_mem_take (Multi.sorted_heat games) hsort 19 (by omega) x hx)
  have htop : Multi.top_threshold games = ((Multi.sorted_heat games).getD 20 (0, 0)).2 := by
    rw [Multi.top_threshold, if_pos (by omega)]
  simp only [Multi.strategy_cluster_heat, Multi.cluster_heat_spec, htop]
  rw [if_neg h, if_neg h, ← List.map_take, ← List.map_take,
    filter_take_eq _ _ 20 21 (by omega) h21, filter_take_eq _ _ 20 20 (le_refl 20) h20]

/-- Witness for C4 at the one-draw history `[[1]]`. -/
theorem cluster_heat_matches_spec_witness :
    ([[1]] : List (List ℕ)) ≠ [] ∧
      Multi.strategy_cluster_heat [[1]] = Multi.cluster_heat_spec [[1]] :=
  ⟨by decide, cluster_heat_matches_spec [[1]] (by decide)⟩

/-- C5: `score_prediction(g)` returns a score whose `hits` is the size of
the intersection of the predicted and drawn number sets and whose
`hit_numbers` is the ascending-sorted intersection, appending exactly
that one row to the scores list (and its persisted mirror); when either
the prediction or the draw with id `g` is missing it returns no value and
the state, the scores list included, is unchanged. -/
theorem score_prediction_spec (st : Tracker.TrackerState) (gid : ℕ) :
    (∀ p g, st.predictions.find? (fun q => q.game_id == gid) = some p →
      st.games.find? (fun q => q.game_id == gid) = some g →
      ∀ s st1, Tracker.score_prediction st gid = (some s, st1) →
        s.game_id = gid ∧
        s.hits = (p.playable_numbers.toFinset ∩ g.numbers.toFinset).card ∧
        s.playable_count = p.playable_numbers.length ∧
        s.hit_numbers.Sorted (· ≤ ·) ∧ s.hit_numbers.Nodup ∧
        s.hit_numbers.toFinset = p.playable_numbers.toFinset ∩ g.numbers.toFinset ∧
        st1.scores = st.scores ++ [Tracker.ScoreRow.mk gid s.hits s.playable_count] ∧
        st1.scores_csv = st1.scores ∧ st1.games = st.games ∧
        (Tracker.score_prediction st gid).1 ≠ none) ∧
    ((st.predictions.find? (fun q => q.game_id == gid) = none ∨
        st.games.find? (fun q => q.game_id == gid) = none) →
      Tracker.score_prediction st gid = (none, st)) := by
  have hcard : ∀ p a : List ℕ,
      ((p.filter (· ∈ a)).dedup).length = (p.toFinset ∩ a.toFinset).card := by
    intro p a
    rw [← List.card_toFinset, List.toFinset_filter]
    congr 1
    rw [← Finset.filter_mem_eq_inter]
    exact Finset.filter_congr fun x _ => by simp
  have hfinset : ∀ p a : List ℕ,
      (List.insertionSort (· ≤ ·) ((p.filter (· ∈ a)).dedup)).toFinset =
        p.toFinset ∩ a.toFinset := by
    intro p a
    ext x
    simp [List.mem_dedup, List.mem_filter]
  constructor
  · intro p g hp hg s st1 hres
    simp only [Tracker.score_prediction, hp, hg] at hres
    injection hres with h1 h2
    injection h1 with h1
    subst h1
    subst h2
    refine ⟨rfl, ?_, rfl, ?_, ?_, ?_, rfl, rfl, rfl, ?_⟩
    · exact hcard p.playable_numbers g.numbers
    · exact List.sorted_insertionSort _ _
    · exact (List.perm_insertionSort _ _).nodup_iff.mpr (List.nodup_dedup _)
    · exact hfinset p.playable_numbers g.numbers
    · simp only [Tracker.score_prediction, hp, hg]
      simp
  · intro h
    rcases h with h | h
    · simp only [Tracker.score_prediction, h]
    · cases hp : st.predictions.find? fun q => q.game_id == gid with
      | none => simp only [Tracker.score_prediction, hp]
      | some p => simp only [Tracker.score_prediction, hp, h]

/-- Witness for C5, the specification's own example: prediction
{1,2,3,4,5} against the 20-number draw 3..22 scores 3 hits with hit
numbers [3,4,5], and exactly that score row is appended. -/
theorem score_prediction_spec_witness :
    Tracker.score_prediction
        (Tracker.TrackerState.mk
          [Tracker.Game.mk 7 "01/01/24" "12:00:00" (List.range' 3 20) "7_01/01/24"]
          [Tracker.Prediction.mk 7 "01/01/24" [1, 2, 3, 4, 5] 0] [] [] []) 7 =
      (some (Tracker.ScoreResult.mk 7 3 5 [3, 4, 5] [1, 2, 3, 4, 5] (List.range' 3 20)),
        Tracker.TrackerState.mk
          [Tracker.Game.mk 7 "01/01/24" "12:00:00" (List.range' 3 20) "7_01/01/24"]
          [Tracker.Prediction.mk 7 "01/01/24" [1, 2, 3, 4, 5] 0] [Tracker.ScoreRow.mk 7 3 5] []
          [Tracker.ScoreRow.mk 7 3 5]) ∧
    (3 : ℕ) = (([1, 2, 3, 4, 5] : List ℕ).toFinset ∩ (List.range' 3 20).toFinset).card := by
  refine ⟨by decide, ?_⟩
  have h := (score_prediction_spec
    (Tracker.TrackerState.mk
      [Tracker.Game.mk 7 "01/01/24" "12:00:00" (List.range' 3 20) "7_01/01/24"]
      [Tracker.Prediction.mk 7 "01/01/24" [1, 2, 3, 4, 5] 0] [] [] []) 7).1
    (Tracker.Prediction.mk 7 "01/01/24" [1, 2, 3, 4, 5] 0)
    (Tracker.Game.mk 7 "01/01/24" "12:00:00" (List.range' 3 20) "7_01/01/24") rfl rfl
    (Tracker.ScoreResult.mk 7 3 5 [3, 4, 5] [1, 2, 3, 4, 5] (List.range' 3 20))
    (Tracker.TrackerState.mk
      [Tracker.Game.mk 7 "01/01/24" "12:00:00" (List.range' 3 20) "7_01/01/24"]
      [Tracker.Prediction.mk 7 "01/01/24" [1, 2, 3, 4, 5] 0] [Tracker.ScoreRow.mk 7 3 5] []
      [Tracker.ScoreRow.mk 7 3 5]) (by decide)
  exact h.2.1

/-- C6: `check_for_updates` returns the delta games and advances and
persists `last_game_id` exactly when the table's latest game id strictly
exceeds the stored checkpoint; otherwise (empty table, or latest not
newer) it returns the empty list and leaves the component untouched; and
`add_manual_game`, the only other mutating operation of the component,
never changes `last_game_id` (nor the games table). -/
theorem check_for_updates_checkpoint (src : Hybrid.HybridGameSource) :
    (src.games_df.getLast? = none → Hybrid.check_for_updates src = ([], src)) ∧
    (∀ latest, src.games_df.getLast? = some latest →
      (latest.game_id ≤ src.state.last_game_id →
        Hybrid.check_for_updates src = ([], src)) ∧
      (src.state.last_game_id < latest.game_id →
        Hybrid.check_for_updates src =
          (Hybrid.get_new_games_since src src.state.last_game_id,
            Hybrid.HybridGameSource.mk
              (Hybrid.SourceState.mk latest.game_id src.state.manual_entries)
              (Hybrid.SourceState.mk latest.game_id src.state.manual_entries)
              src.games_df))) ∧
    (∀ gid drawn ts,
      ((Hybrid.add_manual_game src gid drawn ts).2).state.last_game_id =
          src.state.last_game_id ∧
        ((Hybrid.add_manual_game src gid drawn ts).2).games_df = src.games_df) := by
  refine ⟨fun h => ?_, fun latest h => ⟨fun hle => ?_, fun hlt => ?_⟩, fun gid drawn ts => ?_⟩
  · simp only [Hybrid.check_for_updates, h]
  · simp only [Hybrid.check_for_updates, h]
    rw [if_neg (by omega)]
  · simp only [Hybrid.check_for_updates, h]
    rw [if_pos hlt]
    rfl
  · unfold Hybrid.add_manual_game
    split
    · exact ⟨rfl, rfl⟩
    · split
      · exact ⟨rfl, rfl⟩
      · exact ⟨rfl, rfl⟩

/-- Witness for C6: a table whose last row has id 9 against a checkpoint
at 5 advances the (persisted) checkpoint to 9 and returns the delta; a
subsequent manual entry leaves the checkpoint at 9. -/
theorem check_for_updates_checkpoint_witness :
    Hybrid.check_for_updates
        (Hybrid.HybridGameSource.mk (Hybrid.SourceState.mk 5 []) (Hybrid.SourceState.mk 5 [])
          [Hybrid.Row.mk 9 "01/02/24" "10:00:00" (List.range' 1 20)]) =
      ([Hybrid.GameDict.mk 9 (List.range' 1 20) "01/02/24" "10:00:00"],
        Hybrid.HybridGameSource.mk (Hybrid.SourceState.mk 9 []) (Hybrid.SourceState.mk 9 [])
          [Hybrid.Row.mk 9 "01/02/24" "10:00:00" (List.range' 1 20)]) ∧
    ((Hybrid.add_manual_game
        (Hybrid.HybridGameSource.mk (Hybrid.SourceState.mk 9 []) (Hybrid.SourceState.mk 9 [])
          [Hybrid.Row.mk 9 "01/02/24" "10:00:00" (List.range' 1 20)])
        10 (List.range' 1 20) "ts").2).state.last_game_id = 9 := by
  constructor
  · have h := ((check_for_updates_checkpoint
      (Hybrid.HybridGameSource.mk (Hybrid.SourceState.mk 5 []) (Hybrid.SourceState.mk 5 [])
        [Hybrid.Row.mk 9 "01/02/24" "10:00:00" (List.range' 1 20)])).2.1
      (Hybrid.Row.mk 9 "01/02/24" "10:00:00" (List.range' 1 20)) rfl).2 (by decide)
    rw [h]
    decide
  · exact ((check_for_updates_checkpoint
      (Hybrid.HybridGameSource.mk (Hybrid.SourceState.mk 9 []) (Hybrid.SourceState.mk 9 [])
        [Hybrid.Row.mk 9 "01/02/24" "10:00:00" (List.range' 1 20)])).2.2
      10 (List.range' 1 20) "ts").1

/-- C8: `send_telegram_message` returns True exactly when the transport
produced a response body whose `ok` field is the boolean true; any
transport exception yields False with the error logged to the console,
and the embedding is a total function - no outcome escapes as an
exception. -/
theorem send_telegram_message_ok (transport : String → String → Telegram.TgOutcome)
    (message : String) (chat_id : Option String) :
    ((Telegram.send_telegram_message transport message chat_id).1 = true ↔
      ∃ d, transport (chat_id.getD Telegram.TELEGRAM_CHAT_ID) message =
        Telegram.TgOutcome.response (some true) d) ∧
    (∀ e, transport (chat_id.getD Telegram.TELEGRAM_CHAT_ID) message =
        Telegram.TgOutcome.exn e →
      Telegram.send_telegram_message transport message chat_id =
        (false, ["Telegram send error: " ++ e])) := by
  cases htr : transport (chat_id.getD Telegram.TELEGRAM_CHAT_ID) message with
  | exn e =>
    constructor
    · simp [Telegram.send_telegram_message, htr]
    · intro e2 he2
      cases he2
      simp [Telegram.send_telegram_message, htr]
  | response okField desc =>
    constructor
    · by_cases hok : okField = some true
      · subst hok
        simp [Telegram.send_telegram_message, htr]
      · simp [Telegram.send_telegram_message, htr, hok]
    · intro e2 he2
      simp at he2

/-- Helper: a page on which every link parses to an entry whose identity
key is already known (locally collected or in the checkpoint) leaves the
loop state unchanged, yields no new entries, and its duplicate plus
already-seen tallies account for every link of the page. -/
theorem process_page_all_known (seen : List String) (ds : Scraper.DeepState) :
    ∀ page : List (Option Scraper.Entry),
      (∀ l ∈ page, ∃ e, l = some e ∧
        (Scraper.unique_key e ∈ ds.collected_keys ∨ Scraper.unique_key e ∈ seen)) →
      (Scraper.process_page seen ds page).st = ds ∧
      (Scraper.process_page seen ds page).page_new = 0 ∧
      (Scraper.process_page seen ds page).page_duplicates +
        (Scraper.process_page seen ds page).page_already_seen = page.length := by
  intro page
  induction page with
  | nil => intro _; exact ⟨rfl, rfl, rfl⟩
  | cons l rest ih =>
    intro h
    obtain ⟨e, rfl, hk⟩ := h l (List.mem_cons_self l rest)
    obtain ⟨ha, hb, hc⟩ := ih fun x hx => h x (List.mem_cons_of_mem _ hx)
    by_cases h1 : Scraper.unique_key e ∈ ds.collected_keys
    · simp only [Scraper.process_page, if_pos h1]
      exact ⟨ha, hb, by simp only [List.length_cons]; omega⟩
    · have h2 : Scraper.unique_key e ∈ seen := hk.resolve_left h1
      simp only [Scraper.process_page, if_neg h1, if_pos h2]
      exact ⟨ha, hb, by simp only [List.length_cons]; omega⟩

/-- C9 (amended): from any reachable loop state with the game target not
yet met, the deep-fetch pagination loop stops at a page - visiting it and
nothing after it - when the page is non-empty and every one of its links
parses to an entry whose identity key is already known (in the run-local
collected set or in the checkpoint's `seen_games`); and the scan never
writes to the scraper state: the checkpoint, `seen_games` included, is
returned exactly as given (only `check_and_save_new_games` extends it). -/
theorem deep_loop_stops_on_known_page (seen : List String) (max_games fuel : ℕ)
    (ds : Scraper.DeepState) (page : List (Option Scraper.Entry))
    (rest : List Scraper.Page) (hne : page ≠ [])
    (hknown : ∀ l ∈ page, ∃ e, l = some e ∧
      (Scraper.unique_key e ∈ ds.collected_keys ∨ Scraper.unique_key e ∈ seen))
    (hlt : ds.all_games.length < max_games) :
    Scraper.deep_loop seen max_games (page :: rest) ds (fuel + 1) = (ds.all_games, 1) ∧
    (∀ st pages mg mp, (Scraper.fetch_historical_deep st pages mg mp).2 = st) := by
  obtain ⟨h1, h2, h3⟩ := process_page_all_known seen ds page hknown
  refine ⟨?_, fun st pages mg mp => rfl⟩
  have hlen : 0 < page.length := List.length_pos.mpr hne
  simp only [Scraper.deep_loop]
  rw [if_neg (show ¬max_games ≤ ds.all_games.length by omega), h2,
    if_neg (show ¬(0 : ℕ) < 0 by omega), if_pos (And.intro h3 hlen), h1]

/-- Witness for C9: a single all-known non-empty page halts the loop at
once, and the scan hands the scraper state back unchanged. -/
theorem deep_loop_stops_on_known_page_witness :
    Scraper.deep_loop ["5_01/01/24"] 10 [[some Scraper.knownEntry]]
        (Scraper.DeepState.mk [] [] 0) 4 = ([], 1) ∧
    (Scraper.fetch_historical_deep Scraper.seenState Scraper.mixedPages 10 4).2 =
      Scraper.seenState := by
  have h := deep_loop_stops_on_known_page ["5_01/01/24"] 10 3 (Scraper.DeepState.mk [] [] 0)
    [some Scraper.knownEntry] [] (by decide)
    (fun l hl => ⟨Scraper.knownEntry, List.mem_singleton.mp hl, Or.inr (by decide)⟩)
    (by decide)
  exact ⟨h.1, h.2 Scraper.seenState Scraper.mixedPages 10 4⟩

/-- C9 counterexample: page 2 of `mixedPages` holds one unparseable link
and one entry whose key is already in the checkpoint, so every entry
PARSED from that page is already known; yet the loop does not stop there:
it visits all 6 pages (the full `max_pages`), because the code's stop
condition `page_duplicates + page_already_seen == len(game_links)` also
counts the unparseable link. -/
theorem deep_fetch_counterexample :
    ((((Scraper.mixedPages.getD 1 []).filterMap id).all
        fun e => decide (Scraper.unique_key e ∈ Scraper.seenState.seen_games)) = true) ∧
    Scraper.mixedPages.getD 1 [] ≠ [] ∧
    (Scraper.fetch_historical_deep Scraper.seenState Scraper.mixedPages 100 6).1.2 = 6 := by
  decide

/-- Witness for C8: a transport that returns `ok = true` yields success;
one that raises yields failure with the logged error line. -/
theorem send_telegram_message_ok_witness :
    (Telegram.send_telegram_message
        (fun _ _ => Telegram.TgOutcome.response (some true) none) "hello" none).1 = true ∧
    Telegram.send_telegram_message (fun _ _ => Telegram.TgOutcome.exn "timeout") "hello" none =
      (false, ["Telegram send error: timeout"]) :=
  ⟨(send_telegram_message_ok (fun _ _ => Telegram.TgOutcome.response (some true) none)
      "hello" none).1.mpr ⟨none, rfl⟩,
    (send_telegram_message_ok (fun _ _ => Telegram.TgOutcome.exn "timeout") "hello" none).2
      "timeout" rfl⟩

end LastDanceKeno
